import Mathlib

/-!
Verification development for the Transformer implementation in
`src/Transformers/model.py`.  Each section embeds one component of the
source file; theorems at the end settle the specification claims.

Tensor-engine semantics (PyTorch) used by the embedding, taken from the
framework's documented behaviour:
  * `nn.Linear(inF, outF)` maps a tensor whose last dimension is `inF`
    to one whose last dimension is `outF`; any other last dimension is a
    runtime shape error.
  * `Tensor.view` requires the number of elements to be preserved.
  * `Tensor.transpose(i, j)` swaps dimensions `i` and `j`.
  * Batched `@` (matmul) on rank-4 tensors requires equal batch
    dimensions and matching inner dimensions.
  * `Tensor.std(dim)` defaults to the Bessel-corrected (unbiased) sample
    standard deviation, dividing by `n - 1`.
  * `nn.Module.register_buffer(name, t)` raises `KeyError` when an
    ordinary attribute of that name already exists on the module.
An error outcome is modelled as `none` / an explicit error value.
-/

/-! ## Shape-level embedding of `MultiAttentionBlock.forward` (model.py 63-100)

Shapes are lists of dimension sizes.  Each tensor-engine operation used by
`forward` is given its shape semantics; `none` is a runtime shape error. -/

/-- `nn.Linear(inF, outF)` shape semantics: the last dimension must equal
`inF` and is replaced by `outF`. -/
def linear_shape (inF outF : ℕ) (s : List ℕ) : Option (List ℕ) :=
  match s.getLast? with
  | some d => if d = inF then some (s.dropLast ++ [outF]) else none
  | none => none

/-- `Tensor.view(a, b, c, d)` shape semantics: element count must be
preserved. -/
def view4_shape (s : List ℕ) (a b c d : ℕ) : Option (List ℕ) :=
  if s.prod = a * b * c * d then some [a, b, c, d] else none

/-- `Tensor.transpose(1, 2)` shape semantics (rank at least 3). -/
def transpose12_shape : List ℕ → Option (List ℕ)
  | a :: b :: c :: rest => some (a :: c :: b :: rest)
  | _ => none

/-- `Tensor.transpose(-2, -1)` shape semantics for the ranks the model
uses (2 to 4). -/
def transpose_last2_shape : List ℕ → Option (List ℕ)
  | [a, b] => some [b, a]
  | [a, b, c] => some [a, c, b]
  | [a, b, c, d] => some [a, b, d, c]
  | _ => none

/-- Batched `@` on rank-4 tensors: equal batch dimensions, matching inner
dimension. -/
def matmul4_shape : List ℕ → List ℕ → Option (List ℕ)
  | [b1, h1, m, k1], [b2, h2, k2, n] =>
    if b1 = b2 ∧ h1 = h2 ∧ k1 = k2 then some [b1, h1, m, n] else none
  | _, _ => none

/-- Shape semantics of `MultiAttentionBlock.forward(q, k, v, mask=None)`
(model.py lines 87-100) on self-attention inputs of shape
`[B, S, d_model]`, with `d_k = d_model // h` as set by `__init__`.
Division by `sqrt(d_k)`, softmax and (identity) dropout preserve shapes
and are elided.  Note the source applies `w_o` directly to the per-head
tensor: there is no transpose-and-reshape between the attention product
and the final projection. -/
def multiAttention_forward_shape (d_model h B S : ℕ) : Option (List ℕ) :=
  let d_k := d_model / h
  do
    let query ← linear_shape d_model d_model [B, S, d_model]
    let key ← linear_shape d_model d_model [B, S, d_model]
    let value ← linear_shape d_model d_model [B, S, d_model]
    let query ← view4_shape query B S h d_k
    let query ← transpose12_shape query
    let key ← view4_shape key B S h d_k
    let key ← transpose12_shape key
    let value ← view4_shape value B S h d_k
    let value ← transpose12_shape value
    let kT ← transpose_last2_shape key
    let score ← matmul4_shape query kT
    let x ← matmul4_shape score value
    linear_shape d_model d_model x

/-! ## Symbolic data-flow embedding of the decoder (model.py 102-157)

`Expr` records, as a first-order term, which tensors flow into which
sublayer calls.  `selfA`/`crossA` record a `MultiAttentionBlock.forward`
call `(q, k, v, mask)` on the block held in `self_attention` resp.
`cross_attention`. -/

inductive Expr where
  /-- the embedded, position-encoded target sequence (the decoder input) -/
  | tgt : Expr
  /-- the encoder stack's output (the memory) -/
  | enc : Expr
  /-- the source padding mask -/
  | srcM : Expr
  /-- the target (causal) mask -/
  | tgtM : Expr
  | selfA : Expr → Expr → Expr → Expr → Expr
  | crossA : Expr → Expr → Expr → Expr → Expr
  | ffn : Expr → Expr
  | norm : Expr → Expr
  | drop : Expr → Expr
  | add : Expr → Expr → Expr
  deriving DecidableEq, Repr

/-- `ResidualConnection.forward(x, sublayer) = x + dropout(sublayer(norm(x)))`
(model.py line 109). -/
def residualConnection_forward (x : Expr) (sublayer : Expr → Expr) : Expr :=
  .add x (.drop (sublayer (.norm x)))

/-- `DecoderBlock.forward(self, encoder_output, x, tgt_mask, src_mask)`
(model.py lines 142-146), with the source's parameter order and bodies:
`residual[0](x, λx. self_attention(x,x,x,tgt_mask))`,
`residual[1](x, λx. cross_attention(encoder_output, encoder_output, x, src_mask))`,
`residual[2](x, feed_forward)`. -/
def decoderBlock_forward (encoder_output x tgt_mask src_mask : Expr) : Expr :=
  let x1 := residualConnection_forward x (fun y => .selfA y y y tgt_mask)
  let x2 := residualConnection_forward x1
    (fun y => .crossA encoder_output encoder_output y src_mask)
  residualConnection_forward x2 (fun y => .ffn y)

/-- `Decoder.forward(self, x, encoder_output, src_mask, tgt_mask)`
(model.py lines 154-157): each layer is invoked positionally as
`layer(x, encoder_output, src_mask, tgt_mask)`, then a final `norm`. -/
def decoder_forward (n : ℕ) (x encoder_output src_mask tgt_mask : Expr) : Expr :=
  .norm ((List.range n).foldl
    (fun acc _ => decoderBlock_forward acc encoder_output src_mask tgt_mask) x)

/-- Modelled from the spec (section 4.8): a decoder block whose first
sublayer is self-attention over the running target state masked by the
target mask, whose second sublayer is cross-attention with queries from
the decoder's current representation and keys/values from the encoder
output masked by the source mask, then feed-forward. -/
def decoderBlock_spec (encoder_output x tgt_mask src_mask : Expr) : Expr :=
  let x1 := residualConnection_forward x (fun y => .selfA y y y tgt_mask)
  let x2 := residualConnection_forward x1
    (fun y => .crossA y encoder_output encoder_output src_mask)
  residualConnection_forward x2 (fun y => .ffn y)

/-- Modelled from the spec (section 4.8): the decoder stack passes its
running state, the encoder output and the two masks to each block in the
roles the block expects, then applies a final normalization. -/
def decoder_spec (n : ℕ) (x encoder_output src_mask tgt_mask : Expr) : Expr :=
  .norm ((List.range n).foldl
    (fun acc _ => decoderBlock_spec encoder_output acc tgt_mask src_mask) x)

/-! ## Build-time trace embedding of `build_transformer` (model.py 195-236)

Construction is modelled as a trace of tensor-creation events together
with an optional error; an error aborts the remaining construction, as a
raised Python exception would.  Only weight tensors (more than one
dimension) are recorded as events; the claims only need which tensor
creations precede which failure. -/

/-- A build-time tensor-creation event (rows, columns). -/
inductive BuildEv where
  | createTensor : ℕ → ℕ → BuildEv
  deriving DecidableEq, Repr

/-- A build-time fatal error. -/
inductive BuildErr where
  /-- `pe[:, 1::2] = cos(...)` with mismatched column counts (odd `d_model`). -/
  | peAssignMismatch : BuildErr
  /-- `register_buffer("pe", self.pe)` after `self.pe` was already set as an
  ordinary attribute: `KeyError` per `nn.Module.register_buffer`. -/
  | peRegisterBufferExists : BuildErr
  /-- the `assert d_model % h == 0` in `MultiAttentionBlock.__init__`. -/
  | dModelNotDivisible : BuildErr
  deriving DecidableEq, Repr

/-- Outcome of a construction step: the tensor creations it performed and
the error it raised, if any. -/
abbrev BuildRes : Type := List BuildEv × Option BuildErr

/-- Sequencing of construction steps: an error aborts the rest. -/
def bseq (a : BuildRes) (k : Unit → BuildRes) : BuildRes :=
  match a with
  | (evs, some e) => (evs, some e)
  | (evs, none) =>
    match k () with
    | (evs2, r) => (evs ++ evs2, r)

/-- `InputEmbedding.__init__` (model.py 6-10): `nn.Embedding(vocab_size,
d_model)` creates the `(vocab_size, d_model)` embedding table. -/
def inputEmbedding_init (d_model vocab_size : ℕ) : BuildRes :=
  ([.createTensor vocab_size d_model], none)

/-- `PositionalEncoding.__init__` (model.py 16-35): creates the
`(seq_length, d_model)` zeros table, the `(seq_length, 1)` position
vector and the `⌈d_model/2⌉`-element `div_term`; assigns the sine slice
(always `⌈d_model/2⌉` columns on both sides); assigns the cosine slice,
which has `⌊d_model/2⌋` target columns against `⌈d_model/2⌉` source
columns — a shape error when `d_model` is odd; finally calls
`register_buffer("pe", self.pe)`, which raises `KeyError` because the
attribute `pe` already exists. -/
def positionalEncoding_init (d_model seq_length : ℕ) : BuildRes :=
  let evs : List BuildEv :=
    [.createTensor seq_length d_model, .createTensor seq_length 1,
     .createTensor 1 ((d_model + 1) / 2)]
  if d_model % 2 = 1 then (evs, some .peAssignMismatch)
  else (evs, some .peRegisterBufferExists)

/-- `nn.Linear(inF, outF)` creates an `(outF, inF)` weight matrix (the
one-dimensional bias is not recorded). -/
def linear_init (inF outF : ℕ) : BuildRes :=
  ([.createTensor outF inF], none)

/-- `MultiAttentionBlock.__init__` (model.py 64-74): the divisibility
assert fires before the four projection matrices are created. -/
def multiAttention_init (d_model h : ℕ) : BuildRes :=
  if d_model % h = 0 then
    bseq (linear_init d_model d_model) (fun _ =>
    bseq (linear_init d_model d_model) (fun _ =>
    bseq (linear_init d_model d_model) (fun _ =>
    linear_init d_model d_model)))
  else ([], some .dModelNotDivisible)

/-- `FeedForwardBlock.__init__` (model.py 54-58): two linear layers. -/
def feedForward_init (d_model d_ff : ℕ) : BuildRes :=
  bseq (linear_init d_model d_ff) (fun _ => linear_init d_ff d_model)

/-- `LayerNorm.__init__` (model.py 42-46): two one-element parameters
(one-dimensional, not recorded as events, never failing). -/
def layerNorm_init : BuildRes := ([], none)

/-- `EncoderBlock.__init__` (model.py 112-116): stores the two
sub-blocks and creates two residual connections (each a `LayerNorm`). -/
def encoderBlock_init : BuildRes :=
  bseq layerNorm_init (fun _ => layerNorm_init)

/-- `DecoderBlock.__init__` (model.py 135-140): three residual
connections. -/
def decoderBlock_init : BuildRes :=
  bseq layerNorm_init (fun _ => bseq layerNorm_init (fun _ => layerNorm_init))

/-- The configuration arguments of `build_transformer` (the real-valued
dropout rate plays no role at build time and is omitted). -/
structure Config where
  src_vocab_size : ℕ
  tgt_vocab_size : ℕ
  src_seq_len : ℕ
  tgt_seq_len : ℕ
  d_model : ℕ
  N : ℕ
  h : ℕ
  d_ff : ℕ

/-- One iteration of the encoder-block construction loop
(model.py 206-210). -/
def encoderLoop_body (cfg : Config) : BuildRes :=
  bseq (multiAttention_init cfg.d_model cfg.h) (fun _ =>
  bseq (feedForward_init cfg.d_model cfg.d_ff) (fun _ =>
  encoderBlock_init))

/-- One iteration of the decoder-block construction loop
(model.py 214-219). -/
def decoderLoop_body (cfg : Config) : BuildRes :=
  bseq (multiAttention_init cfg.d_model cfg.h) (fun _ =>
  bseq (multiAttention_init cfg.d_model cfg.h) (fun _ =>
  bseq (feedForward_init cfg.d_model cfg.d_ff) (fun _ =>
  decoderBlock_init)))

/-- Runs a construction step `n` times in sequence. -/
def brepeat (n : ℕ) (body : BuildRes) : BuildRes :=
  match n with
  | 0 => ([], none)
  | n + 1 => bseq body (fun _ => brepeat n body)

/-- `build_transformer` (model.py 195-236), as the sequence of
constructions the source performs in source order: the two embeddings,
the two positional encodings, `N` encoder blocks, `N` decoder blocks,
the `Encoder`/`Decoder` wrappers (each owning one `LayerNorm`), the
projection layer, and the `Transformer` wrapper.  The final Xavier pass
touches only already-created tensors. -/
def build_transformer (cfg : Config) : BuildRes :=
  bseq (inputEmbedding_init cfg.d_model cfg.src_vocab_size) (fun _ =>
  bseq (inputEmbedding_init cfg.d_model cfg.tgt_vocab_size) (fun _ =>
  bseq (positionalEncoding_init cfg.d_model cfg.src_seq_len) (fun _ =>
  bseq (positionalEncoding_init cfg.d_model cfg.tgt_seq_len) (fun _ =>
  bseq (brepeat cfg.N (encoderLoop_body cfg)) (fun _ =>
  bseq (brepeat cfg.N (decoderLoop_body cfg)) (fun _ =>
  bseq layerNorm_init (fun _ =>
  bseq layerNorm_init (fun _ =>
  linear_init cfg.d_model cfg.tgt_vocab_size))))))))

/-! ## `LayerNorm.forward` over one feature row (model.py 41-51)

`mean`/`std` are taken with `dim=-1`, i.e. over the feature (last)
dimension per leading position; one row of that dimension is modelled as
a list of reals.  `Tensor.std` is PyTorch's default Bessel-corrected
sample standard deviation (divides by `n - 1`). -/

/-- `x.mean(dim=-1)` on one feature row. -/
noncomputable def t_mean (x : List ℝ) : ℝ := x.sum / x.length

/-- `x.std(dim=-1)` on one feature row: PyTorch's default is the
Bessel-corrected sample standard deviation, dividing by `n - 1`. -/
noncomputable def t_std (x : List ℝ) : ℝ :=
  Real.sqrt ((x.map (fun v => (v - t_mean x) ^ 2)).sum / ((x.length : ℝ) - 1))

/-- `LayerNorm.forward` (model.py 48-51) on one feature row, with scale
`alpha`, shift `gamma` and stabiliser `eps` (default `1e-6`):
`alpha * (x - mean) / (std + eps) + gamma`. -/
noncomputable def layerNorm_forward (alpha gamma eps : ℝ) (x : List ℝ) : List ℝ :=
  x.map (fun v => alpha * (v - t_mean x) / (t_std x + eps) + gamma)

/-- Modelled from the spec (section 4.3): the population standard
deviation over the feature row, dividing by `n`. -/
noncomputable def t_popStd (x : List ℝ) : ℝ :=
  Real.sqrt ((x.map (fun v => (v - t_mean x) ^ 2)).sum / (x.length : ℝ))

/-- Modelled from the spec (section 4.3), with the claim's population
standard deviation: `scale * (x - mean) / (std + eps) + shift`. -/
noncomputable def layerNorm_claim (alpha gamma eps : ℝ) (x : List ℝ) : List ℝ :=
  x.map (fun v => alpha * (v - t_mean x) / (t_popStd x + eps) + gamma)

/-- The claim amended to the code's sample standard deviation:
`scale * (x - mean) / (std + eps) + shift` with the Bessel-corrected
(`n - 1`) standard deviation. -/
noncomputable def layerNorm_claim_sample (alpha gamma eps : ℝ) (x : List ℝ) : List ℝ :=
  x.map (fun v =>
    alpha * (v - t_mean x) /
      (Real.sqrt ((x.map (fun w => (w - t_mean x) ^ 2)).sum / ((x.length : ℝ) - 1)) + eps)
    + gamma)

/-! ## The positional-encoding table (model.py 22-33)

The table entry at `(pos, k)` for even `d_model`:
`div_term[i] = exp((2 i) * (-log 10000 / d_model))`, the even slice gets
`sin(pos * div_term)` and the odd slice `cos(pos * div_term)`. -/

/-- `div_term[i] = exp((2 i) * (-log(10000.0) / d_model))`
(model.py line 27). -/
noncomputable def div_term (d_model i : ℕ) : ℝ :=
  Real.exp ((2 * i : ℝ) * (-Real.log 10000 / d_model))

/-- The precomputed positional-encoding table entry `pe[pos, k]`
(model.py lines 30-31): the even slice `pe[:, ::2]` holds
`sin(position * div_term)` and the odd slice `pe[:, 1::2]` holds
`cos(position * div_term)`, so column `k` uses `div_term[k / 2]`. -/
noncomputable def pe_table (d_model pos k : ℕ) : ℝ :=
  if k % 2 = 0 then Real.sin (pos * div_term d_model (k / 2))
  else Real.cos (pos * div_term d_model (k / 2))

/-! ## Scaled dot-product attention over the reals (model.py 76-85)

A (possibly batched per leading index) matrix is modelled as
`Tsr := ℕ → ℕ → ℝ` with the relevant dimensions passed explicitly; the
claims about `attention` concern one head, whose query rows are indexed
by the first argument. -/

/-- A two-dimensional real tensor, indexed by row and column. -/
def Tsr : Type := ℕ → ℕ → ℝ

/-- `(query @ key.transpose(-2, -1)) / math.sqrt(d_k)`
(model.py line 79). -/
noncomputable def scores (d_k : ℕ) (query key : Tsr) : Tsr :=
  fun i j => (∑ t ∈ Finset.range d_k, query i t * key j t) / Real.sqrt d_k

open Classical in
/-- `attention_score.masked_fill_(mask == 0, -1e9)` (model.py line 81):
entries where the mask is zero become `-1e9`. -/
noncomputable def maskedFill (mask s : Tsr) : Tsr :=
  fun i j => if mask i j = 0 then (-1e9 : ℝ) else s i j

/-- `attention_score.softmax(-1)` (model.py line 82) with `s_k` key
positions. -/
noncomputable def softmaxLast (s_k : ℕ) (s : Tsr) : Tsr :=
  fun i j => Real.exp (s i j) / ∑ t ∈ Finset.range s_k, Real.exp (s i t)

/-- `attention_score @ value` (model.py line 85) with `s_k` key
positions. -/
noncomputable def matmulT (s_k : ℕ) (s value : Tsr) : Tsr :=
  fun i d => ∑ t ∈ Finset.range s_k, s i t * value t d

/-- `MultiAttentionBlock.attention(query, key, value, mask, dropout)`
(model.py lines 76-85): scaled scores, optional mask fill, softmax over
key positions, optional dropout, then the value-weighted sum; returns
the pair `(attention_score @ value, attention_score)`. -/
noncomputable def attention (d_k s_k : ℕ) (query key value : Tsr)
    (mask : Option Tsr) (dropout : Option (Tsr → Tsr)) : Tsr × Tsr :=
  let attention_score := scores d_k query key
  let attention_score :=
    match mask with
    | some m => maskedFill m attention_score
    | none => attention_score
  let attention_score := softmaxLast s_k attention_score
  let attention_score :=
    match dropout with
    | some d => d attention_score
    | none => attention_score
  (matmulT s_k attention_score value, attention_score)

/-! ## Heap-level embedding of `attention` for the frame property

PyTorch tensors are heap objects; `masked_fill_` is the one in-place
operation in `attention` (model.py line 81).  The heap is a list of
tensors addressed by index; out-of-place operations allocate a fresh
tensor, `masked_fill_` overwrites the addressed tensor in place. -/

/-- A heap of tensors addressed by allocation index. -/
structure Heap where
  tensors : List Tsr

/-- Reading a tensor from the heap (the default is never reached at
valid addresses). -/
noncomputable def Heap.read (h : Heap) (i : ℕ) : Tsr :=
  h.tensors.getD i (fun _ _ => 0)

/-- Allocating a fresh tensor: appended at the next free index. -/
def Heap.alloc (h : Heap) (t : Tsr) : Heap × ℕ :=
  (⟨h.tensors ++ [t]⟩, h.tensors.length)

/-- Overwriting the tensor at an index in place. -/
def Heap.write (h : Heap) (i : ℕ) (t : Tsr) : Heap :=
  ⟨h.tensors.set i t⟩

/-- `MultiAttentionBlock.attention` (model.py lines 76-85) at heap
level, dropout `None`: the score matmul and division allocate a fresh
score tensor; `masked_fill_` (when a mask is supplied) overwrites that
fresh tensor in place; softmax and the final matmul allocate fresh
tensors.  Returns the final heap and the addresses of the two returned
tensors `(attention_score @ value, attention_score)`. -/
noncomputable def attention_heap (h : Heap) (d_k s_k : ℕ)
    (queryId keyId valueId : ℕ) (maskId : Option ℕ) : Heap × ℕ × ℕ :=
  let query := h.read queryId
  let key := h.read keyId
  let p1 := h.alloc (scores d_k query key)
  let h1 := p1.1
  let scoreId := p1.2
  let h2 :=
    match maskId with
    | some m => h1.write scoreId (maskedFill (h1.read m) (h1.read scoreId))
    | none => h1
  let p3 := h2.alloc (softmaxLast s_k (h2.read scoreId))
  let h3 := p3.1
  let softId := p3.2
  let p4 := h3.alloc (matmulT s_k (h3.read softId) (h3.read valueId))
  (p4.1, p4.2, softId)

/-! ## Claim theorems -/

/-- C1: the claim that `MultiAttentionBlock.forward` returns shape
`(B, S, d_model)` for every `h` dividing `d_model` fails on the code: the
per-head attention result is never transposed back and reshaped, so `w_o`
is applied to a `(B, h, S, d_k)` tensor.  At `B = 1, S = 3, d_model = 4`:
with `h = 2` the final projection rejects last dimension `d_k = 2` (a
runtime shape error, modelled as `none`), and with `h = 1` the output has
rank-4 shape `(1, 1, 3, 4)`, not the input shape `(1, 3, 4)`. -/
theorem multiAttention_forward_shape_not_round_trip :
    multiAttention_forward_shape 4 2 1 3 = none ∧
    multiAttention_forward_shape 4 1 1 3 = some [1, 1, 3, 4] ∧
    [1, 1, 3, 4] ≠ [1, 3, 4] := by decide

/-- C2: the claim that `Decoder.forward` passes its running state, the
encoder output and the two masks to each `DecoderBlock` in the roles the
block expects fails on the code: `layer(x, encoder_output, src_mask,
tgt_mask)` meets the block signature `(encoder_output, x, tgt_mask,
src_mask)`, so every argument lands in the wrong role.  With one block,
the first sublayer self-attends over the encoder output masked by the
source mask (first conjunct, evaluating the code), which differs from
the spec-modelled decoder (second conjunct). -/
theorem decoder_forward_swaps_block_arguments :
    (let x1 := Expr.add .enc (.drop (.selfA (.norm .enc) (.norm .enc) (.norm .enc) .srcM));
     let x2 := Expr.add x1 (.drop (.crossA .tgt .tgt (.norm x1) .tgtM));
     decoder_forward 1 .tgt .enc .srcM .tgtM =
       .norm (.add x2 (.drop (.ffn (.norm x2))))) ∧
    decoder_forward 1 .tgt .enc .srcM .tgtM ≠ decoder_spec 1 .tgt .enc .srcM .tgtM := by
  decide

/-- C3: the claim that the cross-attention sublayer receives the
decoder's current representation as query and the encoder output as key
and value fails on the code: `DecoderBlock.forward` calls
`cross_attention(encoder_output, encoder_output, x, src_mask)`, so query
and key are the encoder output and the value is the decoder's running
state.  Evaluated with the block's parameters bound to the roles its
signature names (first conjunct), and contrasted with the spec-modelled
block (second conjunct). -/
theorem decoderBlock_cross_attention_misroutes_inputs :
    (let x1 := Expr.add .tgt (.drop (.selfA (.norm .tgt) (.norm .tgt) (.norm .tgt) .tgtM));
     let x2 := Expr.add x1 (.drop (.crossA .enc .enc (.norm x1) .srcM));
     decoderBlock_forward .enc .tgt .tgtM .srcM =
       .add x2 (.drop (.ffn (.norm x2)))) ∧
    decoderBlock_forward .enc .tgt .tgtM .srcM ≠
      decoderBlock_spec .enc .tgt .tgtM .srcM := by
  decide

/-- C5: the claim that `build_transformer` completes without error on any
configuration with `d_model % h = 0` fails on the code: with the default
`d_model = 512, N = 6, h = 8` (and vocabulary sizes 10, sequence lengths
5), construction stops inside the first `PositionalEncoding` with the
`register_buffer` `KeyError`, right after creating the two embedding
tables and the positional tensors. -/
theorem build_transformer_raises_register_buffer_error :
    build_transformer ⟨10, 10, 5, 5, 512, 6, 8, 2048⟩ =
      ([.createTensor 10 512, .createTensor 10 512, .createTensor 5 512,
        .createTensor 5 1, .createTensor 1 256],
       some .peRegisterBufferExists) := by decide

/-- C6 counterexample: at `d_model = 4, h = 3` (not divisible), the build
does fail, but tensor creations precede the failure and the error raised
is not the divisibility assertion — the configuration is not rejected
before any tensor operation runs. -/
theorem build_rejection_not_before_tensor_ops :
    (4 % 3 ≠ 0) ∧
    (build_transformer ⟨10, 10, 5, 5, 4, 1, 3, 16⟩).2 ≠ none ∧
    (build_transformer ⟨10, 10, 5, 5, 4, 1, 3, 16⟩).1 ≠ [] ∧
    (build_transformer ⟨10, 10, 5, 5, 4, 1, 3, 16⟩).2 ≠ some .dModelNotDivisible := by
  decide

/-- Every build stops inside the first `PositionalEncoding` after the two
embedding tables and the positional tensors are created: the cosine slice
assignment fails for odd `d_model`, and otherwise `register_buffer("pe",
self.pe)` raises `KeyError` because the attribute already exists. -/
theorem build_always_stops_in_positional_encoding (cfg : Config) :
    build_transformer cfg =
      ([.createTensor cfg.src_vocab_size cfg.d_model,
        .createTensor cfg.tgt_vocab_size cfg.d_model,
        .createTensor cfg.src_seq_len cfg.d_model,
        .createTensor cfg.src_seq_len 1,
        .createTensor 1 ((cfg.d_model + 1) / 2)],
       some (if cfg.d_model % 2 = 1 then .peAssignMismatch
             else .peRegisterBufferExists)) := by
  by_cases h : cfg.d_model % 2 = 1 <;>
    simp [build_transformer, bseq, inputEmbedding_init, positionalEncoding_init, h]

/-- C6 amended: a configuration with `d_model` not divisible by `h` does
fail fatally at build time, but only after tensor operations have run —
the embedding tables and positional-encoding tensors are created before
the failure (which, due to the `register_buffer` slip, is raised inside
`PositionalEncoding`, before the divisibility assertion is ever
reached). -/
theorem build_fails_only_after_tensor_creation (cfg : Config)
    (hdvd : cfg.d_model % cfg.h ≠ 0) :
    (build_transformer cfg).2.isSome = true ∧ (build_transformer cfg).1 ≠ [] := by
  rw [build_always_stops_in_positional_encoding]
  exact ⟨rfl, by simp⟩

/-- Witness for the amended C6 at the concrete configuration
`d_model = 4, h = 3`. -/
theorem build_fails_only_after_tensor_creation_witness :
    ((⟨10, 10, 5, 5, 4, 1, 3, 16⟩ : Config).d_model %
        (⟨10, 10, 5, 5, 4, 1, 3, 16⟩ : Config).h ≠ 0) ∧
    ((build_transformer ⟨10, 10, 5, 5, 4, 1, 3, 16⟩).2.isSome = true ∧
     (build_transformer ⟨10, 10, 5, 5, 4, 1, 3, 16⟩).1 ≠ []) :=
  ⟨by decide,
   build_fails_only_after_tensor_creation ⟨10, 10, 5, 5, 4, 1, 3, 16⟩ (by decide)⟩

/-- C4 counterexample: on the feature row `[0, 2]` (with the default
`eps = 1e-6`, initial scale 1 and shift 0), `LayerNorm.forward` divides
by `std + eps = sqrt 2 + 1e-6` — the Bessel-corrected standard deviation
PyTorch's `Tensor.std` defaults to — while the claim's population
standard deviation gives `1 + 1e-6`, so the outputs differ. -/
theorem layerNorm_not_population_std :
    layerNorm_forward 1 0 (1e-6) [0, 2] ≠ layerNorm_claim 1 0 (1e-6) [0, 2] := by
  have hm : t_mean [0, 2] = 1 := by simp [t_mean]
  have hs : t_std [0, 2] = Real.sqrt 2 := by
    simp [t_std, hm]
    norm_num
  have hp : t_popStd [0, 2] = 1 := by
    simp [t_popStd, hm]
    norm_num
  have hsqrt2 : Real.sqrt 2 ≠ 1 := by
    intro h
    have h2 : (2:ℝ) = 1 := by
      have hsq := Real.sq_sqrt (by norm_num : (0:ℝ) ≤ 2)
      rw [h] at hsq
      simpa using hsq.symm
    norm_num at h2
  intro hEq
  simp [layerNorm_forward, layerNorm_claim, hm, hs, hp] at hEq
  obtain ⟨h1, -⟩ := hEq
  have hd1 : Real.sqrt 2 + 1e-6 ≠ 0 := by positivity
  have hd2 : (1:ℝ) + 1e-6 ≠ 0 := by norm_num
  rw [div_eq_div_iff hd1 hd2] at h1
  apply hsqrt2
  norm_num at h1
  linarith

/-- C4 amended: `LayerNorm.forward` returns
`scale * (x - mean) / (std + eps) + shift` over the feature dimension,
where `std` is the Bessel-corrected sample standard deviation (dividing
by `n - 1`, PyTorch's `Tensor.std` default), not the population one. -/
theorem layerNorm_forward_is_sample_std (alpha gamma eps : ℝ) (x : List ℝ) :
    layerNorm_forward alpha gamma eps x = layerNorm_claim_sample alpha gamma eps x := rfl

/-- C8: with dropout disabled, `attention` under an all-ones mask equals
`attention` with no mask: the `-1e9` fill applies to no entry because the
mask has no zero entries, so the score tensor — and everything after
it — is unchanged. -/
theorem attention_all_ones_mask_eq_no_mask (d_k s_k : ℕ) (query key value : Tsr) :
    attention d_k s_k query key value (some (fun _ _ => 1)) none =
      attention d_k s_k query key value none none := by
  have hfill : maskedFill (fun _ _ => (1:ℝ)) (scores d_k query key) =
      scores d_k query key := by
    funext i j
    simp [maskedFill]
  unfold attention
  simp only [hfill]

/-- Rewriting `div_term` (model.py line 27) as an inverse power:
`exp((2 i) * (-log 10000 / d_model)) = 10000 ^ (-(2 i / d_model))`. -/
theorem div_term_eq (d_model i : ℕ) :
    div_term d_model i = ((10000 : ℝ) ^ (2 * (i:ℝ) / d_model))⁻¹ := by
  rw [div_term, Real.rpow_def_of_pos (by norm_num : (0:ℝ) < 10000), ← Real.exp_neg]
  congr 1
  ring

/-- C9: the precomputed positional table satisfies
`pe[pos, 2 i] = sin(pos / 10000 ^ (2 i / d_model))` and
`pe[pos, 2 i + 1] = cos(pos / 10000 ^ (2 i / d_model))` for every valid
column pair, and row 0 is the alternating `[0, 1, 0, 1, ...]`. -/
theorem pe_table_matches_sinusoid (d_model pos i : ℕ) (h2i : 2 * i + 1 < d_model) :
    pe_table d_model pos (2 * i) =
      Real.sin ((pos : ℝ) / (10000 : ℝ) ^ (2 * (i:ℝ) / (d_model : ℝ))) ∧
    pe_table d_model pos (2 * i + 1) =
      Real.cos ((pos : ℝ) / (10000 : ℝ) ^ (2 * (i:ℝ) / (d_model : ℝ))) ∧
    pe_table d_model 0 (2 * i) = 0 ∧
    pe_table d_model 0 (2 * i + 1) = 1 := by
  have heven : (2 * i) % 2 = 0 := by omega
  have hdiv1 : 2 * i / 2 = i := by omega
  have hdiv2 : (2 * i + 1) / 2 = i := by omega
  refine ⟨?_, ?_, ?_, ?_⟩
  · rw [pe_table, if_pos heven, hdiv1, div_term_eq]
    rw [div_eq_mul_inv ((pos : ℝ))]
  · rw [pe_table, if_neg (by omega : ¬(2 * i + 1) % 2 = 0), hdiv2, div_term_eq]
    rw [div_eq_mul_inv ((pos : ℝ))]
  · rw [pe_table, if_pos heven]
    simp
  · rw [pe_table, if_neg (by omega : ¬(2 * i + 1) % 2 = 0)]
    simp

/-- Witness for C9 at `d_model = 4, pos = 1, i = 0`. -/
theorem pe_table_matches_sinusoid_witness :
    (2 * 0 + 1 < 4) ∧
    (pe_table 4 1 (2 * 0) =
       Real.sin (((1:ℕ) : ℝ) / (10000 : ℝ) ^ (2 * ((0:ℕ):ℝ) / ((4:ℕ) : ℝ))) ∧
     pe_table 4 1 (2 * 0 + 1) =
       Real.cos (((1:ℕ) : ℝ) / (10000 : ℝ) ^ (2 * ((0:ℕ):ℝ) / ((4:ℕ) : ℝ))) ∧
     pe_table 4 0 (2 * 0) = 0 ∧
     pe_table 4 0 (2 * 0 + 1) = 1) :=
  ⟨by decide, pe_table_matches_sinusoid 4 1 0 (by decide)⟩

/-- Reads below the original heap length are unchanged by the
alloc-write-alloc-alloc chain `attention` performs: the in-place write
targets the freshly allocated index `h.tensors.length`. -/
theorem heap_chain_read (h : Heap) (i : ℕ) (hi : i < h.tensors.length)
    (t1 tw t2 t3 : Tsr) :
    ((((h.alloc t1).1.write h.tensors.length tw).alloc t2).1.alloc t3).1.read i =
      h.read i := by
  have hne : h.tensors.length ≠ i := (Nat.ne_of_lt hi).symm
  simp only [Heap.read, Heap.alloc, Heap.write, List.getD_eq_getElem?_getD]
  rw [List.getElem?_append_left (by simp [List.length_set]; omega),
    List.getElem?_append_left (by simp [List.length_set]; omega),
    List.getElem?_set_ne hne, List.getElem?_append_left hi]

/-- C10: `attention` never mutates its query, key, value or mask
tensors: the in-place `-1e9` fill lands on the freshly allocated score
tensor, so after the call every input address reads back exactly the
tensor it held before. -/
theorem attention_heap_preserves_inputs (h : Heap) (d_k s_k qId kId vId mId : ℕ)
    (hq : qId < h.tensors.length) (hk : kId < h.tensors.length)
    (hv : vId < h.tensors.length) (hm : mId < h.tensors.length) :
    (attention_heap h d_k s_k qId kId vId (some mId)).1.read qId = h.read qId ∧
    (attention_heap h d_k s_k qId kId vId (some mId)).1.read kId = h.read kId ∧
    (attention_heap h d_k s_k qId kId vId (some mId)).1.read vId = h.read vId ∧
    (attention_heap h d_k s_k qId kId vId (some mId)).1.read mId = h.read mId := by
  refine ⟨heap_chain_read h qId hq _ _ _ _, heap_chain_read h kId hk _ _ _ _,
    heap_chain_read h vId hv _ _ _ _, heap_chain_read h mId hm _ _ _ _⟩

/-- A concrete four-tensor heap for the C10 witness. -/
noncomputable def heap4 : Heap :=
  ⟨[fun _ _ => (0:ℝ), fun _ _ => 1, fun _ _ => 2, fun _ _ => 3]⟩

/-- Witness for C10 on the concrete heap `heap4`, with query, key, value
and mask at addresses 0, 1, 2, 3. -/
theorem attention_heap_preserves_inputs_witness :
    (0 < heap4.tensors.length ∧ 1 < heap4.tensors.length ∧
     2 < heap4.tensors.length ∧ 3 < heap4.tensors.length) ∧
    ((attention_heap heap4 1 1 0 1 2 (some 3)).1.read 0 = heap4.read 0 ∧
     (attention_heap heap4 1 1 0 1 2 (some 3)).1.read 1 = heap4.read 1 ∧
     (attention_heap heap4 1 1 0 1 2 (some 3)).1.read 2 = heap4.read 2 ∧
     (attention_heap heap4 1 1 0 1 2 (some 3)).1.read 3 = heap4.read 3) :=
  ⟨⟨by decide, by decide, by decide, by decide⟩,
   attention_heap_preserves_inputs heap4 1 1 0 1 2 3
     (by decide) (by decide) (by decide) (by decide)⟩
